import Mathlib

/-!
Shallow embedding of `include/zephyr/drivers/actuator.h` (the Zephyr actuator
driver interface) and verification of its specification.

The header defines:
  * `struct actuator_value`   — a fixed-point physical value,
  * `enum actuator_setting`   — tunable-parameter identifiers,
  * `enum actuator_control_mode`,
  * `struct actuator_driver_api` — a table of 14 nullable function-pointer
    capability slots,
  * 14 `static inline z_impl_actuator_*` facade functions, each of the shape
    `if (api->slot == NULL) return -ENOSYS; return api->slot(...)`.

Modelling choices:
  * The opaque `const struct device *` is an arbitrary type `D`; the field
    access `dev->api` is an arbitrary function `device_api : D → actuator_driver_api D`.
  * A `NULL` function pointer slot is `none`; a populated slot is `some f`.
  * C `int` results are `Int` (no arithmetic is performed on them by the
    facade, so no wrap-around modelling is needed).
  * An output parameter `struct actuator_value *val` of a "get" callback is
    modelled state-passing style: the callback receives the buffer's current
    contents and returns the pair (result, new buffer contents).  The facade
    itself never writes the buffer, which the model shows by returning the
    incoming contents unchanged on the `NULL`-slot path.
  * The C `enum actuator_setting` argument is an `Int`: the enumeration is
    open-ended (values up to `INT16_MAX` are admitted), and C permits any
    integer of the enum's underlying type at a call site.
-/

/-- The errno code ENOSYS, as defined by Zephyr's minimal libc (errno.h).
Every facade function returns `-ENOSYS` when its capability slot is NULL. -/
def ENOSYS : Int := 88

/-- Representation of an actuator readout value (struct actuator_value,
actuator.h lines 50-55).  The represented value is
`integer_value + factional_value * 10^(-6)`.  Field names keep the source's
spelling, including the typo `factional_value`.  The C fields are `int32_t`;
they are modelled as `Int`, with the int32 range stated explicitly in the
theorems where it matters. -/
structure actuator_value where
  integer_value : Int
  factional_value : Int
  deriving DecidableEq

/-- Enum actuator_control_mode (actuator.h lines 108-112). -/
inductive actuator_control_mode where
  | ACTUATOR_TORQUE_CONTROL
  | ACTUATOR_VELOCITY_CONTROL
  | ACTUATOR_POSITION_CONTROL
  deriving DecidableEq

/-! Enum actuator_setting (actuator.h lines 57-106).  C gives the first
enumerator the value 0 and each subsequent uninitialised enumerator the
predecessor's value plus one; the explicit initialisers are
`ACTUATOR_SETTING_PRIV_START = ACTUATOR_SETTING_COMMON_COUNT` and
`ACTUATOR_SETTING_MAX = INT16_MAX`. -/

def ACTUATOR_SETTING_TORQUE_KP : Int := 0
def ACTUATOR_SETTING_TORQUE_KI : Int := ACTUATOR_SETTING_TORQUE_KP + 1
def ACTUATOR_SETTING_TORQUE_KD : Int := ACTUATOR_SETTING_TORQUE_KI + 1
def ACTUATOR_SETTING_TORQUE_INTEGRATOR_LIMIT : Int := ACTUATOR_SETTING_TORQUE_KD + 1
def ACTUATOR_SETTING_TORQUE_MAX_OUTPUT_VALUE : Int := ACTUATOR_SETTING_TORQUE_INTEGRATOR_LIMIT + 1
def ACTUATOR_SETTING_VELOCITY_KP : Int := ACTUATOR_SETTING_TORQUE_MAX_OUTPUT_VALUE + 1
def ACTUATOR_SETTING_VELOCITY_KI : Int := ACTUATOR_SETTING_VELOCITY_KP + 1
def ACTUATOR_SETTING_VELOCITY_KD : Int := ACTUATOR_SETTING_VELOCITY_KI + 1
def ACTUATOR_SETTING_VELOCITY_INTEGRATOR_LIMIT : Int := ACTUATOR_SETTING_VELOCITY_KD + 1
def ACTUATOR_SETTING_VELOCITY_MAX_OUTPUT_VALUE : Int := ACTUATOR_SETTING_VELOCITY_INTEGRATOR_LIMIT + 1
def ACTUATOR_SETTING_POSITION_KP : Int := ACTUATOR_SETTING_VELOCITY_MAX_OUTPUT_VALUE + 1
def ACTUATOR_SETTING_POSITION_KI : Int := ACTUATOR_SETTING_POSITION_KP + 1
def ACTUATOR_SETTING_POSITION_KD : Int := ACTUATOR_SETTING_POSITION_KI + 1
def ACTUATOR_SETTING_POSITION_INTEGRATOR_LIMIT : Int := ACTUATOR_SETTING_POSITION_KD + 1
def ACTUATOR_SETTING_POSITION_MAX_OUTPUT_VALUE : Int := ACTUATOR_SETTING_POSITION_INTEGRATOR_LIMIT + 1
def ACTUATOR_SETTING_MOTOR_POLES : Int := ACTUATOR_SETTING_POSITION_MAX_OUTPUT_VALUE + 1

/-- Number of all common actuator settings. -/
def ACTUATOR_SETTING_COMMON_COUNT : Int := ACTUATOR_SETTING_MOTOR_POLES + 1

/-- This and higher values are actuator specific. -/
def ACTUATOR_SETTING_PRIV_START : Int := ACTUATOR_SETTING_COMMON_COUNT

/-- INT16_MAX from stdint.h. -/
def INT16_MAX : Int := 32767

/-- Maximum value describing an actuator setting. -/
def ACTUATOR_SETTING_MAX : Int := INT16_MAX

/-- The sixteen common setting identifiers, in declaration order. -/
def actuator_common_settings : List Int :=
  [ACTUATOR_SETTING_TORQUE_KP, ACTUATOR_SETTING_TORQUE_KI, ACTUATOR_SETTING_TORQUE_KD,
   ACTUATOR_SETTING_TORQUE_INTEGRATOR_LIMIT, ACTUATOR_SETTING_TORQUE_MAX_OUTPUT_VALUE,
   ACTUATOR_SETTING_VELOCITY_KP, ACTUATOR_SETTING_VELOCITY_KI, ACTUATOR_SETTING_VELOCITY_KD,
   ACTUATOR_SETTING_VELOCITY_INTEGRATOR_LIMIT, ACTUATOR_SETTING_VELOCITY_MAX_OUTPUT_VALUE,
   ACTUATOR_SETTING_POSITION_KP, ACTUATOR_SETTING_POSITION_KI, ACTUATOR_SETTING_POSITION_KD,
   ACTUATOR_SETTING_POSITION_INTEGRATOR_LIMIT, ACTUATOR_SETTING_POSITION_MAX_OUTPUT_VALUE,
   ACTUATOR_SETTING_MOTOR_POLES]

/-- Actuator driver API definition (struct actuator_driver_api,
actuator.h lines 234-249): one nullable function-pointer slot per
capability.  `D` is the opaque device-handle type; each callback receives
the same device handle the facade was invoked with.  "Get" callbacks take
the output buffer's current contents and return (result, new contents). -/
structure actuator_driver_api (D : Type) where
  control_mode_set : Option (D → actuator_control_mode → Int)
  enable : Option (D → Int)
  disable : Option (D → Int)
  setting_set : Option (D → Int → actuator_value → Int)
  setting_get : Option (D → Int → actuator_value → Int × actuator_value)
  torque_target_set : Option (D → actuator_value → Int)
  torque_target_get : Option (D → actuator_value → Int × actuator_value)
  velocity_target_set : Option (D → actuator_value → Int)
  velocity_target_get : Option (D → actuator_value → Int × actuator_value)
  position_target_set : Option (D → actuator_value → Int)
  position_target_get : Option (D → actuator_value → Int × actuator_value)
  torque_actual_get : Option (D → actuator_value → Int × actuator_value)
  velocity_actual_get : Option (D → actuator_value → Int × actuator_value)
  position_actual_get : Option (D → actuator_value → Int × actuator_value)

section Facade

variable {D : Type} (device_api : D → actuator_driver_api D)

/-- Facade: set the control mode for an actuator
(z_impl_actuator_control_mode_set, actuator.h lines 261-271). -/
def z_impl_actuator_control_mode_set (dev : D) (mode : actuator_control_mode) : Int :=
  let api := device_api dev
  match api.control_mode_set with
  | none => -ENOSYS
  | some f => f dev mode

/-- Facade: enable an actuator (z_impl_actuator_enable, lines 282-291). -/
def z_impl_actuator_enable (dev : D) : Int :=
  let api := device_api dev
  match api.enable with
  | none => -ENOSYS
  | some f => f dev

/-- Facade: disable an actuator (z_impl_actuator_disable, lines 302-311). -/
def z_impl_actuator_disable (dev : D) : Int :=
  let api := device_api dev
  match api.disable with
  | none => -ENOSYS
  | some f => f dev

/-- Facade: set a setting for an actuator (z_impl_actuator_setting_set,
lines 325-335). -/
def z_impl_actuator_setting_set (dev : D) (sett : Int) (val : actuator_value) : Int :=
  let api := device_api dev
  match api.setting_set with
  | none => -ENOSYS
  | some f => f dev sett val

/-- Facade: get a setting for an actuator (z_impl_actuator_setting_get,
lines 349-359).  `val` is the output buffer's current contents. -/
def z_impl_actuator_setting_get (dev : D) (sett : Int) (val : actuator_value) :
    Int × actuator_value :=
  let api := device_api dev
  match api.setting_get with
  | none => (-ENOSYS, val)
  | some f => f dev sett val

/-- Facade: set the torque target (z_impl_actuator_torque_target_set,
lines 372-382). -/
def z_impl_actuator_torque_target_set (dev : D) (val : actuator_value) : Int :=
  let api := device_api dev
  match api.torque_target_set with
  | none => -ENOSYS
  | some f => f dev val

/-- Facade: get the torque target (z_impl_actuator_torque_target_get,
lines 394-404). -/
def z_impl_actuator_torque_target_get (dev : D) (val : actuator_value) :
    Int × actuator_value :=
  let api := device_api dev
  match api.torque_target_get with
  | none => (-ENOSYS, val)
  | some f => f dev val

/-- Facade: set the velocity target (z_impl_actuator_velocity_target_set,
lines 417-427). -/
def z_impl_actuator_velocity_target_set (dev : D) (val : actuator_value) : Int :=
  let api := device_api dev
  match api.velocity_target_set with
  | none => -ENOSYS
  | some f => f dev val

/-- Facade: get the velocity target (z_impl_actuator_velocity_target_get,
lines 439-449). -/
def z_impl_actuator_velocity_target_get (dev : D) (val : actuator_value) :
    Int × actuator_value :=
  let api := device_api dev
  match api.velocity_target_get with
  | none => (-ENOSYS, val)
  | some f => f dev val

/-- Facade: set the position target (z_impl_actuator_position_target_set,
lines 462-472). -/
def z_impl_actuator_position_target_set (dev : D) (val : actuator_value) : Int :=
  let api := device_api dev
  match api.position_target_set with
  | none => -ENOSYS
  | some f => f dev val

/-- Facade: get the position target (z_impl_actuator_position_target_get,
lines 484-494). -/
def z_impl_actuator_position_target_get (dev : D) (val : actuator_value) :
    Int × actuator_value :=
  let api := device_api dev
  match api.position_target_get with
  | none => (-ENOSYS, val)
  | some f => f dev val

/-- Facade: get the actual torque (z_impl_actuator_torque_actual_get,
lines 506-516). -/
def z_impl_actuator_torque_actual_get (dev : D) (val : actuator_value) :
    Int × actuator_value :=
  let api := device_api dev
  match api.torque_actual_get with
  | none => (-ENOSYS, val)
  | some f => f dev val

/-- Facade: get the actual velocity (z_impl_actuator_velocity_actual_get,
lines 528-538). -/
def z_impl_actuator_velocity_actual_get (dev : D) (val : actuator_value) :
    Int × actuator_value :=
  let api := device_api dev
  match api.velocity_actual_get with
  | none => (-ENOSYS, val)
  | some f => f dev val

/-- Facade: get the actual position (z_impl_actuator_position_actual_get,
lines 550-560). -/
def z_impl_actuator_position_actual_get (dev : D) (val : actuator_value) :
    Int × actuator_value :=
  let api := device_api dev
  match api.position_actual_get with
  | none => (-ENOSYS, val)
  | some f => f dev val

end Facade

/-! Fixed-point conversion.  The header (lines 37-48) documents the
representation by the formula `val1 + val2 * 10^(-6)` and by examples that
fix the decomposition of negative values:
`0.5 -> (0, 500000)`, `-0.5 -> (0, -500000)`, `-1.0 -> (-1, 0)`,
`-1.5 -> (-1, -500000)`.  A value measured in integral one-millionth units
(micro-units) therefore decomposes by division truncated toward zero, the
remainder carrying the dividend's sign. -/

/-- Decode: the represented value, in micro-units, of an actuator_value
(the header's formula `val1 + val2 * 10^(-6)`, scaled by 10^6). -/
def actuator_value_to_micro (v : actuator_value) : Int :=
  v.integer_value * 1000000 + v.factional_value

/-- Decode: the represented value as an exact rational,
`integer_value + factional_value * 10^(-6)` (actuator.h line 41). -/
def actuator_value_to_rat (v : actuator_value) : ℚ :=
  (v.integer_value : ℚ) + (v.factional_value : ℚ) / 1000000

/-- Encode: decompose a value given in micro-units into the header's
(integer part, fractional part) representation, matching the header's
examples (truncation toward zero; the fractional part keeps the sign of
the value, e.g. -1.5 = -1500000 micro-units -> (-1, -500000)). -/
def actuator_value_of_micro (m : Int) : actuator_value :=
  ⟨m.tdiv 1000000, m.tmod 1000000⟩

/-! Generic dispatch scheme.  The spec states one algorithm shared by all
operations: resolve the capability table; if the requested slot is absent
fail with "not supported"; otherwise call the slot with the given
arguments and return its outcome.  The two definitions below follow those
words (one for plain operations, one for operations with an output
buffer, which the facade must leave untouched on the absent path). -/

/-- Spec-side generic dispatch for an operation returning a bare outcome:
absent slot yields -ENOSYS, present slot is called with the given
arguments (packaged in `call`) and its outcome returned unchanged. -/
def spec_dispatch {C : Type} (slot : Option C) (call : C → Int) : Int :=
  match slot with
  | none => -ENOSYS
  | some f => call f

/-- Spec-side generic dispatch for a "get" operation with an output
buffer: absent slot yields -ENOSYS with the buffer untouched, present
slot is called with the given arguments and its outcome returned
unchanged. -/
def spec_dispatch_get {C : Type} (slot : Option C) (buf : actuator_value)
    (call : C → Int × actuator_value) : Int × actuator_value :=
  match slot with
  | none => (-ENOSYS, buf)
  | some f => call f

/-! Concrete capability tables used to witness the theorems.  `mkApi p`
populates slot `k` exactly when `p k` is true; the populated
implementations are argument-sensitive so that forwarding is observable. -/

/-- Numeric code of a control mode (only used by witness implementations). -/
def mode_code : actuator_control_mode → Int
  | .ACTUATOR_TORQUE_CONTROL => 0
  | .ACTUATOR_VELOCITY_CONTROL => 1
  | .ACTUATOR_POSITION_CONTROL => 2

/-- A concrete capability table over the trivial device type: slot `k`
(in declaration order, 0-13) is populated exactly when `p k` is true. -/
def mkApi (p : Nat → Bool) : actuator_driver_api Unit :=
  ⟨if p 0 then some (fun _ mode => 10 + mode_code mode) else none,
   if p 1 then some (fun _ => 1) else none,
   if p 2 then some (fun _ => 2) else none,
   if p 3 then some (fun _ sett val => 100 + sett + val.integer_value + val.factional_value)
     else none,
   if p 4 then some (fun _ sett _ => (3, ⟨sett, 7⟩)) else none,
   if p 5 then some (fun _ val => 200 + val.integer_value) else none,
   if p 6 then some (fun _ _ => (4, ⟨41, 42⟩)) else none,
   if p 7 then some (fun _ val => 300 + val.integer_value) else none,
   if p 8 then some (fun _ _ => (5, ⟨51, 52⟩)) else none,
   if p 9 then some (fun _ val => 400 + val.integer_value) else none,
   if p 10 then some (fun _ _ => (6, ⟨61, 62⟩)) else none,
   if p 11 then some (fun _ _ => (7, ⟨71, 72⟩)) else none,
   if p 12 then some (fun _ _ => (8, ⟨81, 82⟩)) else none,
   if p 13 then some (fun _ _ => (9, ⟨91, 92⟩)) else none⟩

/-- The all-absent capability table (every slot NULL). -/
def apiNone : actuator_driver_api Unit := mkApi (fun _ => false)

/-- The all-present capability table. -/
def apiFull : actuator_driver_api Unit := mkApi (fun _ => true)

/-! Helper lemmas about the fixed-point decomposition. -/

/-- Truncated remainder of a negated dividend is the negated remainder. -/
lemma Int_neg_tmod (a b : Int) : (-a).tmod b = -(a.tmod b) := by
  rw [Int.tmod_def, Int.tmod_def, Int.neg_tdiv]
  ring

/-- Decoding after encoding recovers the micro-unit value exactly. -/
lemma actuator_value_micro_roundtrip (m : Int) :
    actuator_value_to_micro (actuator_value_of_micro m) = m := by
  have h := Int.tdiv_add_tmod m 1000000
  simp only [actuator_value_to_micro, actuator_value_of_micro]
  omega

/-- The rational decode is the micro-unit decode divided by 10^6. -/
lemma actuator_value_to_rat_eq_micro (v : actuator_value) :
    actuator_value_to_rat v = (actuator_value_to_micro v : ℚ) / 1000000 := by
  rw [actuator_value_to_rat, actuator_value_to_micro]
  push_cast
  ring

/-- The truncated remainder by 10^6 has magnitude below 10^6. -/
lemma Int_abs_tmod_lt (m : Int) : |m.tmod 1000000| < 1000000 := by
  rcases le_total 0 m with hm0 | hm0
  · have h1 := Int.tmod_nonneg 1000000 hm0
    have h2 := Int.tmod_lt_of_pos m (by decide : (0:Int) < 1000000)
    rw [abs_lt]; omega
  · have e : m.tmod 1000000 = -((-m).tmod 1000000) := by
      rw [Int_neg_tmod]; simp
    have h1 := Int.tmod_nonneg 1000000 (by omega : (0:Int) ≤ -m)
    have h2 := Int.tmod_lt_of_pos (-m) (by decide : (0:Int) < 1000000)
    rw [abs_lt]; omega

/-- C6: the setting-identifier enumeration is partitioned as documented:
the sixteen common identifiers take, in declaration order, exactly the
values 0..15, all strictly below ACTUATOR_SETTING_COMMON_COUNT = 16 and
pairwise distinct; the implementation-private range begins exactly at
ACTUATOR_SETTING_PRIV_START = ACTUATOR_SETTING_COMMON_COUNT; and every
setting identifier is bounded above by ACTUATOR_SETTING_MAX = INT16_MAX
= 32767. -/
theorem actuator_setting_partition :
    actuator_common_settings = [0, 1, 2, 3, 4, 5, 6, 7, 8, 9, 10, 11, 12, 13, 14, 15] ∧
    ACTUATOR_SETTING_COMMON_COUNT = 16 ∧
    (actuator_common_settings.all fun s =>
      decide (0 ≤ s ∧ s < ACTUATOR_SETTING_COMMON_COUNT)) = true ∧
    actuator_common_settings.Nodup ∧
    actuator_common_settings.length = 16 ∧
    ACTUATOR_SETTING_PRIV_START = ACTUATOR_SETTING_COMMON_COUNT ∧
    ACTUATOR_SETTING_MAX = INT16_MAX ∧
    INT16_MAX = 32767 ∧
    (actuator_common_settings.all fun s => decide (s ≤ ACTUATOR_SETTING_MAX)) = true ∧
    ACTUATOR_SETTING_COMMON_COUNT ≤ ACTUATOR_SETTING_MAX := by
  decide

/-- C3: under the decomposition documented in the header, the integer and
fractional parts of every value agree in sign (both non-negative or both
non-positive, hence in particular for every non-zero value), and the
value -1.5 (that is, -1500000 micro-units) decomposes exactly as integer
part -1 with fractional part -500000 — whose decoded rational value is
indeed -3/2 — and not as -2 with +500000. -/
theorem actuator_value_sign_consistency :
    (∀ m : Int,
      (0 ≤ (actuator_value_of_micro m).integer_value ∧
       0 ≤ (actuator_value_of_micro m).factional_value) ∨
      ((actuator_value_of_micro m).integer_value ≤ 0 ∧
       (actuator_value_of_micro m).factional_value ≤ 0)) ∧
    actuator_value_of_micro (-1500000) = ⟨-1, -500000⟩ ∧
    actuator_value_to_rat ⟨-1, -500000⟩ = -(3 / 2) ∧
    actuator_value_of_micro (-1500000) ≠ ⟨-2, 500000⟩ := by
  refine ⟨fun m => ?_, by decide, by norm_num [actuator_value_to_rat], by decide⟩
  rcases le_total 0 m with h | h
  · exact Or.inl ⟨Int.tdiv_nonneg h (by decide), Int.tmod_nonneg 1000000 h⟩
  · simp only [actuator_value_of_micro]
    refine Or.inr ⟨?_, ?_⟩
    · have h1 : 0 ≤ (-m).tdiv 1000000 := Int.tdiv_nonneg (by omega) (by decide)
      rw [Int.neg_tdiv] at h1
      omega
    · have h2 : 0 ≤ (-m).tmod 1000000 := Int.tmod_nonneg 1000000 (by omega)
      rw [Int_neg_tmod] at h2
      omega

/-- C4: for every fixed-point-representable value (an exact multiple m of
10^-6 micro-units) with magnitude below 2^31, encoding into the header's
(integer part, fractional part) representation and decoding by the
formula integer_value + factional_value * 10^-6 recovers the value
exactly — in particular within 10^-6 absolute error — the micro-unit
round trip is exact, and both fields fit in int32 (the integer part has
magnitude below 2^31 and the fractional part below 10^6). -/
theorem actuator_value_roundtrip (m : Int) (h : |m| < 2 ^ 31 * 1000000) :
    actuator_value_to_rat (actuator_value_of_micro m) = (m : ℚ) / 1000000 ∧
    |actuator_value_to_rat (actuator_value_of_micro m) - (m : ℚ) / 1000000| ≤ 1 / 1000000 ∧
    actuator_value_to_micro (actuator_value_of_micro m) = m ∧
    |(actuator_value_of_micro m).integer_value| < 2 ^ 31 ∧
    |(actuator_value_of_micro m).factional_value| < 1000000 := by
  have hq : actuator_value_to_rat (actuator_value_of_micro m) = (m : ℚ) / 1000000 := by
    rw [actuator_value_to_rat_eq_micro, actuator_value_micro_roundtrip]
  refine ⟨hq, ?_, actuator_value_micro_roundtrip m, ?_, ?_⟩
  · rw [hq]
    simp
  · have hd : (m.tdiv 1000000).natAbs = m.natAbs / 1000000 := Int.natAbs_tdiv m 1000000
    rw [abs_lt] at h
    simp only [actuator_value_of_micro]
    rw [abs_lt]
    omega
  · exact Int_abs_tmod_lt m

/-- Witness for C4 at the concrete input m = -1500000 (the value -1.5). -/
theorem actuator_value_roundtrip_witness :
    |(-1500000 : Int)| < 2 ^ 31 * 1000000 ∧
    actuator_value_to_rat (actuator_value_of_micro (-1500000)) =
      ((-1500000 : Int) : ℚ) / 1000000 :=
  ⟨by decide, (actuator_value_roundtrip (-1500000) (by decide)).1⟩

/-- C1: for every facade operation whose capability slot is absent (NULL),
the call returns -ENOSYS; the absent slot holds no implementation, so no
implementation code can be reached, and the failure outcome is the same
constant -ENOSYS for all 14 operations. -/
theorem facade_absent_slot_returns_enosys {D : Type}
    (device_api : D → actuator_driver_api D) (dev : D) :
    (∀ mode, (device_api dev).control_mode_set = none →
      z_impl_actuator_control_mode_set device_api dev mode = -ENOSYS) ∧
    ((device_api dev).enable = none →
      z_impl_actuator_enable device_api dev = -ENOSYS) ∧
    ((device_api dev).disable = none →
      z_impl_actuator_disable device_api dev = -ENOSYS) ∧
    (∀ sett val, (device_api dev).setting_set = none →
      z_impl_actuator_setting_set device_api dev sett val = -ENOSYS) ∧
    (∀ sett val, (device_api dev).setting_get = none →
      (z_impl_actuator_setting_get device_api dev sett val).1 = -ENOSYS) ∧
    (∀ val, (device_api dev).torque_target_set = none →
      z_impl_actuator_torque_target_set device_api dev val = -ENOSYS) ∧
    (∀ val, (device_api dev).torque_target_get = none →
      (z_impl_actuator_torque_target_get device_api dev val).1 = -ENOSYS) ∧
    (∀ val, (device_api dev).velocity_target_set = none →
      z_impl_actuator_velocity_target_set device_api dev val = -ENOSYS) ∧
    (∀ val, (device_api dev).velocity_target_get = none →
      (z_impl_actuator_velocity_target_get device_api dev val).1 = -ENOSYS) ∧
    (∀ val, (device_api dev).position_target_set = none →
      z_impl_actuator_position_target_set device_api dev val = -ENOSYS) ∧
    (∀ val, (device_api dev).position_target_get = none →
      (z_impl_actuator_position_target_get device_api dev val).1 = -ENOSYS) ∧
    (∀ val, (device_api dev).torque_actual_get = none →
      (z_impl_actuator_torque_actual_get device_api dev val).1 = -ENOSYS) ∧
    (∀ val, (device_api dev).velocity_actual_get = none →
      (z_impl_actuator_velocity_actual_get device_api dev val).1 = -ENOSYS) ∧
    (∀ val, (device_api dev).position_actual_get = none →
      (z_impl_actuator_position_actual_get device_api dev val).1 = -ENOSYS) := by
  refine ⟨fun mode h => ?_, fun h => ?_, fun h => ?_, fun sett val h => ?_,
    fun sett val h => ?_, fun val h => ?_, fun val h => ?_, fun val h => ?_, fun val h => ?_,
    fun val h => ?_, fun val h => ?_, fun val h => ?_, fun val h => ?_, fun val h => ?_⟩ <;>
  simp [z_impl_actuator_control_mode_set, z_impl_actuator_enable, z_impl_actuator_disable,
    z_impl_actuator_setting_set, z_impl_actuator_setting_get, z_impl_actuator_torque_target_set,
    z_impl_actuator_torque_target_get, z_impl_actuator_velocity_target_set,
    z_impl_actuator_velocity_target_get, z_impl_actuator_position_target_set,
    z_impl_actuator_position_target_get, z_impl_actuator_torque_actual_get,
    z_impl_actuator_velocity_actual_get, z_impl_actuator_position_actual_get, h]

/-- Witness for C1: on the all-absent capability table, each of the 14
facade operations returns -ENOSYS. -/
theorem facade_absent_slot_returns_enosys_witness :
    z_impl_actuator_control_mode_set (fun _ : Unit => apiNone) ()
      actuator_control_mode.ACTUATOR_TORQUE_CONTROL = -ENOSYS ∧
    z_impl_actuator_enable (fun _ : Unit => apiNone) () = -ENOSYS ∧
    z_impl_actuator_disable (fun _ : Unit => apiNone) () = -ENOSYS ∧
    z_impl_actuator_setting_set (fun _ : Unit => apiNone) () 3 ⟨1, 2⟩ = -ENOSYS ∧
    (z_impl_actuator_setting_get (fun _ : Unit => apiNone) () 3 ⟨1, 2⟩).1 = -ENOSYS ∧
    z_impl_actuator_torque_target_set (fun _ : Unit => apiNone) () ⟨1, 2⟩ = -ENOSYS ∧
    (z_impl_actuator_torque_target_get (fun _ : Unit => apiNone) () ⟨1, 2⟩).1 = -ENOSYS ∧
    z_impl_actuator_velocity_target_set (fun _ : Unit => apiNone) () ⟨1, 2⟩ = -ENOSYS ∧
    (z_impl_actuator_velocity_target_get (fun _ : Unit => apiNone) () ⟨1, 2⟩).1 = -ENOSYS ∧
    z_impl_actuator_position_target_set (fun _ : Unit => apiNone) () ⟨1, 2⟩ = -ENOSYS ∧
    (z_impl_actuator_position_target_get (fun _ : Unit => apiNone) () ⟨1, 2⟩).1 = -ENOSYS ∧
    (z_impl_actuator_torque_actual_get (fun _ : Unit => apiNone) () ⟨1, 2⟩).1 = -ENOSYS ∧
    (z_impl_actuator_velocity_actual_get (fun _ : Unit => apiNone) () ⟨1, 2⟩).1 = -ENOSYS ∧
    (z_impl_actuator_position_actual_get (fun _ : Unit => apiNone) () ⟨1, 2⟩).1 = -ENOSYS := by
  obtain ⟨h1, h2, h3, h4, h5, h6, h7, h8, h9, h10, h11, h12, h13, h14⟩ :=
    facade_absent_slot_returns_enosys (fun _ : Unit => apiNone) ()
  exact ⟨h1 _ rfl, h2 rfl, h3 rfl, h4 3 ⟨1, 2⟩ rfl, h5 3 ⟨1, 2⟩ rfl, h6 ⟨1, 2⟩ rfl,
    h7 ⟨1, 2⟩ rfl, h8 ⟨1, 2⟩ rfl, h9 ⟨1, 2⟩ rfl, h10 ⟨1, 2⟩ rfl, h11 ⟨1, 2⟩ rfl,
    h12 ⟨1, 2⟩ rfl, h13 ⟨1, 2⟩ rfl, h14 ⟨1, 2⟩ rfl⟩

/-- C9: for every "get" facade operation whose slot is absent, the call
fails with -ENOSYS and the caller-supplied output buffer is returned
completely unchanged by the facade (no partial effect on error). -/
theorem facade_get_absent_output_unchanged {D : Type}
    (device_api : D → actuator_driver_api D) (dev : D) :
    (∀ sett val, (device_api dev).setting_get = none →
      z_impl_actuator_setting_get device_api dev sett val = (-ENOSYS, val)) ∧
    (∀ val, (device_api dev).torque_target_get = none →
      z_impl_actuator_torque_target_get device_api dev val = (-ENOSYS, val)) ∧
    (∀ val, (device_api dev).velocity_target_get = none →
      z_impl_actuator_velocity_target_get device_api dev val = (-ENOSYS, val)) ∧
    (∀ val, (device_api dev).position_target_get = none →
      z_impl_actuator_position_target_get device_api dev val = (-ENOSYS, val)) ∧
    (∀ val, (device_api dev).torque_actual_get = none →
      z_impl_actuator_torque_actual_get device_api dev val = (-ENOSYS, val)) ∧
    (∀ val, (device_api dev).velocity_actual_get = none →
      z_impl_actuator_velocity_actual_get device_api dev val = (-ENOSYS, val)) ∧
    (∀ val, (device_api dev).position_actual_get = none →
      z_impl_actuator_position_actual_get device_api dev val = (-ENOSYS, val)) := by
  refine ⟨fun sett val h => ?_, fun val h => ?_, fun val h => ?_, fun val h => ?_,
    fun val h => ?_, fun val h => ?_, fun val h => ?_⟩ <;>
  simp [z_impl_actuator_setting_get, z_impl_actuator_torque_target_get,
    z_impl_actuator_velocity_target_get, z_impl_actuator_position_target_get,
    z_impl_actuator_torque_actual_get, z_impl_actuator_velocity_actual_get,
    z_impl_actuator_position_actual_get, h]

/-- Witness for C9: on the all-absent capability table, each "get"
operation returns -ENOSYS with the buffer contents ⟨6, 7⟩ untouched. -/
theorem facade_get_absent_output_unchanged_witness :
    z_impl_actuator_setting_get (fun _ : Unit => apiNone) () 3 ⟨6, 7⟩ = (-ENOSYS, ⟨6, 7⟩) ∧
    z_impl_actuator_torque_target_get (fun _ : Unit => apiNone) () ⟨6, 7⟩ = (-ENOSYS, ⟨6, 7⟩) ∧
    z_impl_actuator_velocity_target_get (fun _ : Unit => apiNone) () ⟨6, 7⟩ = (-ENOSYS, ⟨6, 7⟩) ∧
    z_impl_actuator_position_target_get (fun _ : Unit => apiNone) () ⟨6, 7⟩ = (-ENOSYS, ⟨6, 7⟩) ∧
    z_impl_actuator_torque_actual_get (fun _ : Unit => apiNone) () ⟨6, 7⟩ = (-ENOSYS, ⟨6, 7⟩) ∧
    z_impl_actuator_velocity_actual_get (fun _ : Unit => apiNone) () ⟨6, 7⟩ = (-ENOSYS, ⟨6, 7⟩) ∧
    z_impl_actuator_position_actual_get (fun _ : Unit => apiNone) () ⟨6, 7⟩ = (-ENOSYS, ⟨6, 7⟩) := by
  obtain ⟨h1, h2, h3, h4, h5, h6, h7⟩ :=
    facade_get_absent_output_unchanged (fun _ : Unit => apiNone) ()
  exact ⟨h1 3 ⟨6, 7⟩ rfl, h2 ⟨6, 7⟩ rfl, h3 ⟨6, 7⟩ rfl, h4 ⟨6, 7⟩ rfl, h5 ⟨6, 7⟩ rfl,
    h6 ⟨6, 7⟩ rfl, h7 ⟨6, 7⟩ rfl⟩

/-- C2: for every facade operation whose capability slot is present, the
facade calls the implementation with the very device handle and
domain-specific arguments it was given and returns the implementation's
result unchanged (round-trip identity of arguments and result). -/
theorem facade_present_slot_forwards {D : Type}
    (device_api : D → actuator_driver_api D) (dev : D) :
    (∀ f mode, (device_api dev).control_mode_set = some f →
      z_impl_actuator_control_mode_set device_api dev mode = f dev mode) ∧
    (∀ f, (device_api dev).enable = some f →
      z_impl_actuator_enable device_api dev = f dev) ∧
    (∀ f, (device_api dev).disable = some f →
      z_impl_actuator_disable device_api dev = f dev) ∧
    (∀ f sett val, (device_api dev).setting_set = some f →
      z_impl_actuator_setting_set device_api dev sett val = f dev sett val) ∧
    (∀ f sett val, (device_api dev).setting_get = some f →
      z_impl_actuator_setting_get device_api dev sett val = f dev sett val) ∧
    (∀ f val, (device_api dev).torque_target_set = some f →
      z_impl_actuator_torque_target_set device_api dev val = f dev val) ∧
    (∀ f val, (device_api dev).torque_target_get = some f →
      z_impl_actuator_torque_target_get device_api dev val = f dev val) ∧
    (∀ f val, (device_api dev).velocity_target_set = some f →
      z_impl_actuator_velocity_target_set device_api dev val = f dev val) ∧
    (∀ f val, (device_api dev).velocity_target_get = some f →
      z_impl_actuator_velocity_target_get device_api dev val = f dev val) ∧
    (∀ f val, (device_api dev).position_target_set = some f →
      z_impl_actuator_position_target_set device_api dev val = f dev val) ∧
    (∀ f val, (device_api dev).position_target_get = some f →
      z_impl_actuator_position_target_get device_api dev val = f dev val) ∧
    (∀ f val, (device_api dev).torque_actual_get = some f →
      z_impl_actuator_torque_actual_get device_api dev val = f dev val) ∧
    (∀ f val, (device_api dev).velocity_actual_get = some f →
      z_impl_actuator_velocity_actual_get device_api dev val = f dev val) ∧
    (∀ f val, (device_api dev).position_actual_get = some f →
      z_impl_actuator_position_actual_get device_api dev val = f dev val) := by
  refine ⟨fun f mode h => ?_, fun f h => ?_, fun f h => ?_, fun f sett val h => ?_,
    fun f sett val h => ?_, fun f val h => ?_, fun f val h => ?_, fun f val h => ?_,
    fun f val h => ?_, fun f val h => ?_, fun f val h => ?_, fun f val h => ?_,
    fun f val h => ?_, fun f val h => ?_⟩ <;>
  simp [z_impl_actuator_control_mode_set, z_impl_actuator_enable, z_impl_actuator_disable,
    z_impl_actuator_setting_set, z_impl_actuator_setting_get, z_impl_actuator_torque_target_set,
    z_impl_actuator_torque_target_get, z_impl_actuator_velocity_target_set,
    z_impl_actuator_velocity_target_get, z_impl_actuator_position_target_set,
    z_impl_actuator_position_target_get, z_impl_actuator_torque_actual_get,
    z_impl_actuator_velocity_actual_get, z_impl_actuator_position_actual_get, h]

/-- Witness for C2: on the all-present capability table, each facade call
yields exactly the value computed by the argument-sensitive concrete
implementation at the given arguments. -/
theorem facade_present_slot_forwards_witness :
    z_impl_actuator_control_mode_set (fun _ : Unit => apiFull) ()
      actuator_control_mode.ACTUATOR_VELOCITY_CONTROL = 11 ∧
    z_impl_actuator_enable (fun _ : Unit => apiFull) () = 1 ∧
    z_impl_actuator_disable (fun _ : Unit => apiFull) () = 2 ∧
    z_impl_actuator_setting_set (fun _ : Unit => apiFull) () 5 ⟨-2, 500000⟩ = 500103 ∧
    z_impl_actuator_setting_get (fun _ : Unit => apiFull) () 5 ⟨1, 2⟩ = (3, ⟨5, 7⟩) ∧
    z_impl_actuator_torque_target_set (fun _ : Unit => apiFull) () ⟨9, 0⟩ = 209 ∧
    z_impl_actuator_torque_target_get (fun _ : Unit => apiFull) () ⟨1, 2⟩ = (4, ⟨41, 42⟩) ∧
    z_impl_actuator_velocity_target_set (fun _ : Unit => apiFull) () ⟨9, 0⟩ = 309 ∧
    z_impl_actuator_velocity_target_get (fun _ : Unit => apiFull) () ⟨1, 2⟩ = (5, ⟨51, 52⟩) ∧
    z_impl_actuator_position_target_set (fun _ : Unit => apiFull) () ⟨9, 0⟩ = 409 ∧
    z_impl_actuator_position_target_get (fun _ : Unit => apiFull) () ⟨1, 2⟩ = (6, ⟨61, 62⟩) ∧
    z_impl_actuator_torque_actual_get (fun _ : Unit => apiFull) () ⟨1, 2⟩ = (7, ⟨71, 72⟩) ∧
    z_impl_actuator_velocity_actual_get (fun _ : Unit => apiFull) () ⟨1, 2⟩ = (8, ⟨81, 82⟩) ∧
    z_impl_actuator_position_actual_get (fun _ : Unit => apiFull) () ⟨1, 2⟩ = (9, ⟨91, 92⟩) := by
  obtain ⟨h1, h2, h3, h4, h5, h6, h7, h8, h9, h10, h11, h12, h13, h14⟩ :=
    facade_present_slot_forwards (fun _ : Unit => apiFull) ()
  exact ⟨(h1 _ _ rfl).trans (by decide), (h2 _ rfl).trans (by decide),
    (h3 _ rfl).trans (by decide), (h4 _ 5 ⟨-2, 500000⟩ rfl).trans (by decide),
    (h5 _ 5 ⟨1, 2⟩ rfl).trans (by decide), (h6 _ ⟨9, 0⟩ rfl).trans (by decide),
    (h7 _ ⟨1, 2⟩ rfl).trans (by decide), (h8 _ ⟨9, 0⟩ rfl).trans (by decide),
    (h9 _ ⟨1, 2⟩ rfl).trans (by decide), (h10 _ ⟨9, 0⟩ rfl).trans (by decide),
    (h11 _ ⟨1, 2⟩ rfl).trans (by decide), (h12 _ ⟨1, 2⟩ rfl).trans (by decide),
    (h13 _ ⟨1, 2⟩ rfl).trans (by decide), (h14 _ ⟨1, 2⟩ rfl).trans (by decide)⟩

/-- C5: the facade performs no validation of domain-specific arguments.
For every control mode, every setting identifier (any integer: common,
private, or outside every declared range) and every value argument
(arbitrary field contents), the outcome is completely characterised by
the slot alone: either the slot is absent and the outcome is the facade's
own -ENOSYS, or the slot is present and the outcome is exactly the
implementation's outcome on the unmodified arguments. -/
theorem facade_no_argument_validation {D : Type}
    (device_api : D → actuator_driver_api D) (dev : D) :
    (∀ mode : actuator_control_mode,
      ((device_api dev).control_mode_set = none ∧
        z_impl_actuator_control_mode_set device_api dev mode = -ENOSYS) ∨
      (∃ f, (device_api dev).control_mode_set = some f ∧
        z_impl_actuator_control_mode_set device_api dev mode = f dev mode)) ∧
    (∀ (sett : Int) (val : actuator_value),
      ((device_api dev).setting_set = none ∧
        z_impl_actuator_setting_set device_api dev sett val = -ENOSYS) ∨
      (∃ f, (device_api dev).setting_set = some f ∧
        z_impl_actuator_setting_set device_api dev sett val = f dev sett val)) ∧
    (∀ (sett : Int) (val : actuator_value),
      ((device_api dev).setting_get = none ∧
        z_impl_actuator_setting_get device_api dev sett val = (-ENOSYS, val)) ∨
      (∃ f, (device_api dev).setting_get = some f ∧
        z_impl_actuator_setting_get device_api dev sett val = f dev sett val)) ∧
    (∀ val : actuator_value,
      ((device_api dev).torque_target_set = none ∧
        z_impl_actuator_torque_target_set device_api dev val = -ENOSYS) ∨
      (∃ f, (device_api dev).torque_target_set = some f ∧
        z_impl_actuator_torque_target_set device_api dev val = f dev val)) ∧
    (∀ val : actuator_value,
      ((device_api dev).velocity_target_set = none ∧
        z_impl_actuator_velocity_target_set device_api dev val = -ENOSYS) ∨
      (∃ f, (device_api dev).velocity_target_set = some f ∧
        z_impl_actuator_velocity_target_set device_api dev val = f dev val)) ∧
    (∀ val : actuator_value,
      ((device_api dev).position_target_set = none ∧
        z_impl_actuator_position_target_set device_api dev val = -ENOSYS) ∨
      (∃ f, (device_api dev).position_target_set = some f ∧
        z_impl_actuator_position_target_set device_api dev val = f dev val)) := by
  refine ⟨fun mode => ?_, fun sett val => ?_, fun sett val => ?_, fun val => ?_,
    fun val => ?_, fun val => ?_⟩
  · cases h : (device_api dev).control_mode_set with
    | none => exact Or.inl ⟨rfl, by simp [z_impl_actuator_control_mode_set, h]⟩
    | some f => exact Or.inr ⟨f, rfl, by simp [z_impl_actuator_control_mode_set, h]⟩
  · cases h : (device_api dev).setting_set with
    | none => exact Or.inl ⟨rfl, by simp [z_impl_actuator_setting_set, h]⟩
    | some f => exact Or.inr ⟨f, rfl, by simp [z_impl_actuator_setting_set, h]⟩
  · cases h : (device_api dev).setting_get with
    | none => exact Or.inl ⟨rfl, by simp [z_impl_actuator_setting_get, h]⟩
    | some f => exact Or.inr ⟨f, rfl, by simp [z_impl_actuator_setting_get, h]⟩
  · cases h : (device_api dev).torque_target_set with
    | none => exact Or.inl ⟨rfl, by simp [z_impl_actuator_torque_target_set, h]⟩
    | some f => exact Or.inr ⟨f, rfl, by simp [z_impl_actuator_torque_target_set, h]⟩
  · cases h : (device_api dev).velocity_target_set with
    | none => exact Or.inl ⟨rfl, by simp [z_impl_actuator_velocity_target_set, h]⟩
    | some f => exact Or.inr ⟨f, rfl, by simp [z_impl_actuator_velocity_target_set, h]⟩
  · cases h : (device_api dev).position_target_set with
    | none => exact Or.inl ⟨rfl, by simp [z_impl_actuator_position_target_set, h]⟩
    | some f => exact Or.inr ⟨f, rfl, by simp [z_impl_actuator_position_target_set, h]⟩

/-- C10: the value type admits every pair of fields (in particular every
pair of int32 fields), and the facade neither enforces nor restores
sign-agreement or sub-unit normalization: with the slot present, every
"set" operation hands the value — sign-disagreeing or with fractional
magnitude at or above 10^6 — to the implementation exactly as given. -/
theorem actuator_value_unconstrained_forwarding {D : Type}
    (device_api : D → actuator_driver_api D) (dev : D) :
    (∀ i fr : Int, (actuator_value.mk i fr).integer_value = i ∧
      (actuator_value.mk i fr).factional_value = fr) ∧
    (∀ g (sett : Int) (val : actuator_value), (device_api dev).setting_set = some g →
      z_impl_actuator_setting_set device_api dev sett val = g dev sett val) ∧
    (∀ g (val : actuator_value), (device_api dev).torque_target_set = some g →
      z_impl_actuator_torque_target_set device_api dev val = g dev val) ∧
    (∀ g (val : actuator_value), (device_api dev).velocity_target_set = some g →
      z_impl_actuator_velocity_target_set device_api dev val = g dev val) ∧
    (∀ g (val : actuator_value), (device_api dev).position_target_set = some g →
      z_impl_actuator_position_target_set device_api dev val = g dev val) := by
  refine ⟨fun i fr => ⟨rfl, rfl⟩, fun g sett val h => ?_, fun g val h => ?_,
    fun g val h => ?_, fun g val h => ?_⟩ <;>
  simp [z_impl_actuator_setting_set, z_impl_actuator_torque_target_set,
    z_impl_actuator_velocity_target_set, z_impl_actuator_position_target_set, h]

/-- Witness for C10: the sign-disagreeing value ⟨-2, 500000⟩ and the
denormalized value ⟨0, 2000000⟩ are forwarded verbatim by the "set"
facades on the all-present table (the implementations read the fields,
so the results witness that the exact fields arrived). -/
theorem actuator_value_unconstrained_forwarding_witness :
    z_impl_actuator_setting_set (fun _ : Unit => apiFull) () 0 ⟨-2, 500000⟩ = 500098 ∧
    z_impl_actuator_torque_target_set (fun _ : Unit => apiFull) () ⟨-2, 500000⟩ = 198 ∧
    z_impl_actuator_velocity_target_set (fun _ : Unit => apiFull) () ⟨0, 2000000⟩ = 300 ∧
    z_impl_actuator_position_target_set (fun _ : Unit => apiFull) () ⟨-2, 500000⟩ = 398 := by
  obtain ⟨-, h2, h3, h4, h5⟩ :=
    actuator_value_unconstrained_forwarding (fun _ : Unit => apiFull) ()
  exact ⟨(h2 _ 0 ⟨-2, 500000⟩ rfl).trans (by decide),
    (h3 _ ⟨-2, 500000⟩ rfl).trans (by decide),
    (h4 _ ⟨0, 2000000⟩ rfl).trans (by decide),
    (h5 _ ⟨-2, 500000⟩ rfl).trans (by decide)⟩

/-- C7: capability slots are pairwise independent at dispatch.  For every
facade operation and any two capability-table assignments that agree on
the invoked operation's slot — and may differ arbitrarily on every other
slot — the operation's outcome is identical; hence no slot's presence is
required for any other slot's operation. -/
theorem facade_slot_independence {D : Type}
    (api1 api2 : D → actuator_driver_api D) (dev : D) :
    (∀ mode, (api1 dev).control_mode_set = (api2 dev).control_mode_set →
      z_impl_actuator_control_mode_set api1 dev mode =
        z_impl_actuator_control_mode_set api2 dev mode) ∧
    ((api1 dev).enable = (api2 dev).enable →
      z_impl_actuator_enable api1 dev = z_impl_actuator_enable api2 dev) ∧
    ((api1 dev).disable = (api2 dev).disable →
      z_impl_actuator_disable api1 dev = z_impl_actuator_disable api2 dev) ∧
    (∀ sett val, (api1 dev).setting_set = (api2 dev).setting_set →
      z_impl_actuator_setting_set api1 dev sett val =
        z_impl_actuator_setting_set api2 dev sett val) ∧
    (∀ sett val, (api1 dev).setting_get = (api2 dev).setting_get →
      z_impl_actuator_setting_get api1 dev sett val =
        z_impl_actuator_setting_get api2 dev sett val) ∧
    (∀ val, (api1 dev).torque_target_set = (api2 dev).torque_target_set →
      z_impl_actuator_torque_target_set api1 dev val =
        z_impl_actuator_torque_target_set api2 dev val) ∧
    (∀ val, (api1 dev).torque_target_get = (api2 dev).torque_target_get →
      z_impl_actuator_torque_target_get api1 dev val =
        z_impl_actuator_torque_target_get api2 dev val) ∧
    (∀ val, (api1 dev).velocity_target_set = (api2 dev).velocity_target_set →
      z_impl_actuator_velocity_target_set api1 dev val =
        z_impl_actuator_velocity_target_set api2 dev val) ∧
    (∀ val, (api1 dev).velocity_target_get = (api2 dev).velocity_target_get →
      z_impl_actuator_velocity_target_get api1 dev val =
        z_impl_actuator_velocity_target_get api2 dev val) ∧
    (∀ val, (api1 dev).position_target_set = (api2 dev).position_target_set →
      z_impl_actuator_position_target_set api1 dev val =
        z_impl_actuator_position_target_set api2 dev val) ∧
    (∀ val, (api1 dev).position_target_get = (api2 dev).position_target_get →
      z_impl_actuator_position_target_get api1 dev val =
        z_impl_actuator_position_target_get api2 dev val) ∧
    (∀ val, (api1 dev).torque_actual_get = (api2 dev).torque_actual_get →
      z_impl_actuator_torque_actual_get api1 dev val =
        z_impl_actuator_torque_actual_get api2 dev val) ∧
    (∀ val, (api1 dev).velocity_actual_get = (api2 dev).velocity_actual_get →
      z_impl_actuator_velocity_actual_get api1 dev val =
        z_impl_actuator_velocity_actual_get api2 dev val) ∧
    (∀ val, (api1 dev).position_actual_get = (api2 dev).position_actual_get →
      z_impl_actuator_position_actual_get api1 dev val =
        z_impl_actuator_position_actual_get api2 dev val) := by
  refine ⟨fun mode h => ?_, fun h => ?_, fun h => ?_, fun sett val h => ?_,
    fun sett val h => ?_, fun val h => ?_, fun val h => ?_, fun val h => ?_, fun val h => ?_,
    fun val h => ?_, fun val h => ?_, fun val h => ?_, fun val h => ?_, fun val h => ?_⟩ <;>
  simp only [z_impl_actuator_control_mode_set, z_impl_actuator_enable, z_impl_actuator_disable,
    z_impl_actuator_setting_set, z_impl_actuator_setting_get, z_impl_actuator_torque_target_set,
    z_impl_actuator_torque_target_get, z_impl_actuator_velocity_target_set,
    z_impl_actuator_velocity_target_get, z_impl_actuator_position_target_set,
    z_impl_actuator_position_target_get, z_impl_actuator_torque_actual_get,
    z_impl_actuator_velocity_actual_get, z_impl_actuator_position_actual_get] <;>
  rw [h]

/-- Witness for C7: for each operation, the table populating only that
operation's slot and the all-present table agree on the invoked slot and
differ on every other slot, yet the operation's outcome coincides. -/
theorem facade_slot_independence_witness :
    z_impl_actuator_control_mode_set (fun _ : Unit => mkApi fun i => decide (i = 0)) ()
        actuator_control_mode.ACTUATOR_TORQUE_CONTROL =
      z_impl_actuator_control_mode_set (fun _ : Unit => apiFull) ()
        actuator_control_mode.ACTUATOR_TORQUE_CONTROL ∧
    z_impl_actuator_enable (fun _ : Unit => mkApi fun i => decide (i = 1)) () =
      z_impl_actuator_enable (fun _ : Unit => apiFull) () ∧
    z_impl_actuator_disable (fun _ : Unit => mkApi fun i => decide (i = 2)) () =
      z_impl_actuator_disable (fun _ : Unit => apiFull) () ∧
    z_impl_actuator_setting_set (fun _ : Unit => mkApi fun i => decide (i = 3)) () 5 ⟨1, 2⟩ =
      z_impl_actuator_setting_set (fun _ : Unit => apiFull) () 5 ⟨1, 2⟩ ∧
    z_impl_actuator_setting_get (fun _ : Unit => mkApi fun i => decide (i = 4)) () 5 ⟨1, 2⟩ =
      z_impl_actuator_setting_get (fun _ : Unit => apiFull) () 5 ⟨1, 2⟩ ∧
    z_impl_actuator_torque_target_set (fun _ : Unit => mkApi fun i => decide (i = 5)) () ⟨1, 2⟩ =
      z_impl_actuator_torque_target_set (fun _ : Unit => apiFull) () ⟨1, 2⟩ ∧
    z_impl_actuator_torque_target_get (fun _ : Unit => mkApi fun i => decide (i = 6)) () ⟨1, 2⟩ =
      z_impl_actuator_torque_target_get (fun _ : Unit => apiFull) () ⟨1, 2⟩ ∧
    z_impl_actuator_velocity_target_set (fun _ : Unit => mkApi fun i => decide (i = 7)) () ⟨1, 2⟩ =
      z_impl_actuator_velocity_target_set (fun _ : Unit => apiFull) () ⟨1, 2⟩ ∧
    z_impl_actuator_velocity_target_get (fun _ : Unit => mkApi fun i => decide (i = 8)) () ⟨1, 2⟩ =
      z_impl_actuator_velocity_target_get (fun _ : Unit => apiFull) () ⟨1, 2⟩ ∧
    z_impl_actuator_position_target_set (fun _ : Unit => mkApi fun i => decide (i = 9)) () ⟨1, 2⟩ =
      z_impl_actuator_position_target_set (fun _ : Unit => apiFull) () ⟨1, 2⟩ ∧
    z_impl_actuator_position_target_get (fun _ : Unit => mkApi fun i => decide (i = 10)) () ⟨1, 2⟩ =
      z_impl_actuator_position_target_get (fun _ : Unit => apiFull) () ⟨1, 2⟩ ∧
    z_impl_actuator_torque_actual_get (fun _ : Unit => mkApi fun i => decide (i = 11)) () ⟨1, 2⟩ =
      z_impl_actuator_torque_actual_get (fun _ : Unit => apiFull) () ⟨1, 2⟩ ∧
    z_impl_actuator_velocity_actual_get (fun _ : Unit => mkApi fun i => decide (i = 12)) () ⟨1, 2⟩ =
      z_impl_actuator_velocity_actual_get (fun _ : Unit => apiFull) () ⟨1, 2⟩ ∧
    z_impl_actuator_position_actual_get (fun _ : Unit => mkApi fun i => decide (i = 13)) () ⟨1, 2⟩ =
      z_impl_actuator_position_actual_get (fun _ : Unit => apiFull) () ⟨1, 2⟩ := by
  refine ⟨?_, ?_, ?_, ?_, ?_, ?_, ?_, ?_, ?_, ?_, ?_, ?_, ?_, ?_⟩
  · exact (facade_slot_independence (fun _ : Unit => mkApi fun i => decide (i = 0))
      (fun _ : Unit => apiFull) ()).1 _ rfl
  · exact (facade_slot_independence (fun _ : Unit => mkApi fun i => decide (i = 1))
      (fun _ : Unit => apiFull) ()).2.1 rfl
  · exact (facade_slot_independence (fun _ : Unit => mkApi fun i => decide (i = 2))
      (fun _ : Unit => apiFull) ()).2.2.1 rfl
  · exact (facade_slot_independence (fun _ : Unit => mkApi fun i => decide (i = 3))
      (fun _ : Unit => apiFull) ()).2.2.2.1 5 ⟨1, 2⟩ rfl
  · exact (facade_slot_independence (fun _ : Unit => mkApi fun i => decide (i = 4))
      (fun _ : Unit => apiFull) ()).2.2.2.2.1 5 ⟨1, 2⟩ rfl
  · exact (facade_slot_independence (fun _ : Unit => mkApi fun i => decide (i = 5))
      (fun _ : Unit => apiFull) ()).2.2.2.2.2.1 ⟨1, 2⟩ rfl
  · exact (facade_slot_independence (fun _ : Unit => mkApi fun i => decide (i = 6))
      (fun _ : Unit => apiFull) ()).2.2.2.2.2.2.1 ⟨1, 2⟩ rfl
  · exact (facade_slot_independence (fun _ : Unit => mkApi fun i => decide (i = 7))
      (fun _ : Unit => apiFull) ()).2.2.2.2.2.2.2.1 ⟨1, 2⟩ rfl
  · exact (facade_slot_independence (fun _ : Unit => mkApi fun i => decide (i = 8))
      (fun _ : Unit => apiFull) ()).2.2.2.2.2.2.2.2.1 ⟨1, 2⟩ rfl
  · exact (facade_slot_independence (fun _ : Unit => mkApi fun i => decide (i = 9))
      (fun _ : Unit => apiFull) ()).2.2.2.2.2.2.2.2.2.1 ⟨1, 2⟩ rfl
  · exact (facade_slot_independence (fun _ : Unit => mkApi fun i => decide (i = 10))
      (fun _ : Unit => apiFull) ()).2.2.2.2.2.2.2.2.2.2.1 ⟨1, 2⟩ rfl
  · exact (facade_slot_independence (fun _ : Unit => mkApi fun i => decide (i = 11))
      (fun _ : Unit => apiFull) ()).2.2.2.2.2.2.2.2.2.2.2.1 ⟨1, 2⟩ rfl
  · exact (facade_slot_independence (fun _ : Unit => mkApi fun i => decide (i = 12))
      (fun _ : Unit => apiFull) ()).2.2.2.2.2.2.2.2.2.2.2.2.1 ⟨1, 2⟩ rfl
  · exact (facade_slot_independence (fun _ : Unit => mkApi fun i => decide (i = 13))
      (fun _ : Unit => apiFull) ()).2.2.2.2.2.2.2.2.2.2.2.2.2 ⟨1, 2⟩ rfl

/-- C8: all 14 facade operations are instances of the one generic dispatch
scheme of the spec — resolve the capability table, return -ENOSYS if the
operation's slot is absent, otherwise call the slot with the given
arguments and return its result — instantiated at that operation's slot
and argument signature (for "get" operations, the scheme additionally
leaves the output buffer untouched on the absent path). -/
theorem facade_equals_generic_dispatch {D : Type}
    (device_api : D → actuator_driver_api D) (dev : D) :
    (∀ mode, z_impl_actuator_control_mode_set device_api dev mode =
      spec_dispatch (device_api dev).control_mode_set (fun f => f dev mode)) ∧
    (z_impl_actuator_enable device_api dev =
      spec_dispatch (device_api dev).enable (fun f => f dev)) ∧
    (z_impl_actuator_disable device_api dev =
      spec_dispatch (device_api dev).disable (fun f => f dev)) ∧
    (∀ sett val, z_impl_actuator_setting_set device_api dev sett val =
      spec_dispatch (device_api dev).setting_set (fun f => f dev sett val)) ∧
    (∀ sett val, z_impl_actuator_setting_get device_api dev sett val =
      spec_dispatch_get (device_api dev).setting_get val (fun f => f dev sett val)) ∧
    (∀ val, z_impl_actuator_torque_target_set device_api dev val =
      spec_dispatch (device_api dev).torque_target_set (fun f => f dev val)) ∧
    (∀ val, z_impl_actuator_torque_target_get device_api dev val =
      spec_dispatch_get (device_api dev).torque_target_get val (fun f => f dev val)) ∧
    (∀ val, z_impl_actuator_velocity_target_set device_api dev val =
      spec_dispatch (device_api dev).velocity_target_set (fun f => f dev val)) ∧
    (∀ val, z_impl_actuator_velocity_target_get device_api dev val =
      spec_dispatch_get (device_api dev).velocity_target_get val (fun f => f dev val)) ∧
    (∀ val, z_impl_actuator_position_target_set device_api dev val =
      spec_dispatch (device_api dev).position_target_set (fun f => f dev val)) ∧
    (∀ val, z_impl_actuator_position_target_get device_api dev val =
      spec_dispatch_get (device_api dev).position_target_get val (fun f => f dev val)) ∧
    (∀ val, z_impl_actuator_torque_actual_get device_api dev val =
      spec_dispatch_get (device_api dev).torque_actual_get val (fun f => f dev val)) ∧
    (∀ val, z_impl_actuator_velocity_actual_get device_api dev val =
      spec_dispatch_get (device_api dev).velocity_actual_get val (fun f => f dev val)) ∧
    (∀ val, z_impl_actuator_position_actual_get device_api dev val =
      spec_dispatch_get (device_api dev).position_actual_get val (fun f => f dev val)) := by
  refine ⟨fun mode => ?_, ?_, ?_, fun sett val => ?_, fun sett val => ?_, fun val => ?_,
    fun val => ?_, fun val => ?_, fun val => ?_, fun val => ?_, fun val => ?_, fun val => ?_,
    fun val => ?_, fun val => ?_⟩
  · cases h : (device_api dev).control_mode_set <;>
      simp [z_impl_actuator_control_mode_set, spec_dispatch, h]
  · cases h : (device_api dev).enable <;>
      simp [z_impl_actuator_enable, spec_dispatch, h]
  · cases h : (device_api dev).disable <;>
      simp [z_impl_actuator_disable, spec_dispatch, h]
  · cases h : (device_api dev).setting_set <;>
      simp [z_impl_actuator_setting_set, spec_dispatch, h]
  · cases h : (device_api dev).setting_get <;>
      simp [z_impl_actuator_setting_get, spec_dispatch_get, h]
  · cases h : (device_api dev).torque_target_set <;>
      simp [z_impl_actuator_torque_target_set, spec_dispatch, h]
  · cases h : (device_api dev).torque_target_get <;>
      simp [z_impl_actuator_torque_target_get, spec_dispatch_get, h]
  · cases h : (device_api dev).velocity_target_set <;>
      simp [z_impl_actuator_velocity_target_set, spec_dispatch, h]
  · cases h : (device_api dev).velocity_target_get <;>
      simp [z_impl_actuator_velocity_target_get, spec_dispatch_get, h]
  · cases h : (device_api dev).position_target_set <;>
      simp [z_impl_actuator_position_target_set, spec_dispatch, h]
  · cases h : (device_api dev).position_target_get <;>
      simp [z_impl_actuator_position_target_get, spec_dispatch_get, h]
  · cases h : (device_api dev).torque_actual_get <;>
      simp [z_impl_actuator_torque_actual_get, spec_dispatch_get, h]
  · cases h : (device_api dev).velocity_actual_get <;>
      simp [z_impl_actuator_velocity_actual_get, spec_dispatch_get, h]
  · cases h : (device_api dev).position_actual_get <;>
      simp [z_impl_actuator_position_actual_get, spec_dispatch_get, h]
